import Mathlib

/-!
Verification model of the novatech-voice-agent repository.

Client side (`frontend/src/hooks/useWebSocket.js`, `frontend/src/App.jsx`)
is embedded directly from the source. The backend conversational pipeline
is not present in the inspected sources; the parts a claim needs
(Agent Orchestrator `answer()`, Session Manager message handling) are
modelled from the specification and marked as such in their doc comments.
-/

namespace NovaTech

/-- Role of a chat message, the `role` field of the objects stored in the
`messages` state of `useWebSocket` (`'user'` or `'assistant'`). -/
inductive Role
  | user
  | assistant
deriving DecidableEq

/-- One entry of the `messages` state array in `useWebSocket.js`:
`{ role, content, timestamp: new Date() }`. The timestamp is the clock
reading at the moment the handler runs, modelled as a `Nat` parameter. -/
structure ChatMessage where
  role : Role
  content : String
  timestamp : Nat
deriving DecidableEq

/-- The React state owned by the `useWebSocket` hook:
`messages` (initial `[]`), `isTyping` (initial `false`),
`isConnected` (initial `false`). -/
structure ClientState where
  messages : List ChatMessage
  isTyping : Bool
  isConnected : Bool
deriving DecidableEq

/-- Initial hook state: `useState([])`, `useState(false)`, `useState(false)`. -/
def initialState : ClientState :=
  { messages := [], isTyping := false, isConnected := false }

/-- A server→client envelope after `JSON.parse` succeeded and `data.type`
was read: the five protocol kinds dispatched by the `switch` in
`ws.onmessage`, plus `other` for any parsed value whose `type` matches
none of the five case labels (the `switch` then falls through, a no-op). -/
inductive ServerMsg
  | connected (content : String)
  | typing (content : Bool)
  | response (content : String)
  | error (content : String)
  | cleared (content : String)
  | other
deriving DecidableEq

/-- A raw incoming frame as seen by `ws.onmessage` before parsing:
`frame m` when `JSON.parse(event.data)` succeeds and reading `data.type`
dispatches as `m`; `nullFrame` when `JSON.parse` succeeds with the JSON
value `null` (reading `null.type` then throws a TypeError);
`malformed` when `event.data` is not JSON and `JSON.parse` throws a
SyntaxError. -/
inductive Frame
  | frame (m : ServerMsg)
  | nullFrame
  | malformed
deriving DecidableEq

/-- The `switch (data.type)` body of `ws.onmessage` in `useWebSocket.js`:
`connected` appends an assistant message; `typing` stores the content in
`isTyping`; `response` clears `isTyping` and appends an assistant message;
`error` clears `isTyping` (the content is only logged); `cleared` replaces
the whole list with a single assistant message; any other type falls
through unchanged. `now` is the clock value used for `new Date()`. -/
def handleEnvelope (st : ClientState) (m : ServerMsg) (now : Nat) : ClientState :=
  match m with
  | .connected c =>
      { st with messages := st.messages ++ [⟨.assistant, c, now⟩] }
  | .typing b =>
      { st with isTyping := b }
  | .response c =>
      { st with isTyping := false,
                messages := st.messages ++ [⟨.assistant, c, now⟩] }
  | .error _ =>
      { st with isTyping := false }
  | .cleared c =>
      { st with messages := [⟨.assistant, c, now⟩] }
  | .other => st

/-- The full `ws.onmessage` handler: `JSON.parse(event.data)` is called
without a try/catch, so a non-JSON frame makes the handler throw a
SyntaxError (modelled as `Except.error ()`), and a JSON `null` frame makes
the `data.type` access throw a TypeError; in both cases no state setter has
run yet, so the state is untouched. Otherwise the switch runs. -/
def onmessage (st : ClientState) (f : Frame) (now : Nat) : Except Unit ClientState :=
  match f with
  | .frame m => .ok (handleEnvelope st m now)
  | .nullFrame => .error ()
  | .malformed => .error ()

/-- WebSocket `readyState` values. -/
inductive ReadyState
  | CONNECTING
  | OPEN
  | CLOSING
  | CLOSED
deriving DecidableEq

/-- The part of a browser `WebSocket` object the hook's send paths read. -/
structure WebSocketRef where
  readyState : ReadyState
deriving DecidableEq

/-- A client→server envelope as serialized by the hook:
`JSON.stringify({type: 'message', content})` or
`JSON.stringify({type: 'clear_history'})`. -/
inductive ClientEnvelope
  | message (content : String)
  | clear_history
deriving DecidableEq

/-- The `sendMessage` callback of `useWebSocket.js`: when
`wsRef.current?.readyState === WebSocket.OPEN`, append a user message to
the state and send a `message` envelope; otherwise do nothing. Returns the
new state and the list of frames sent on the wire. -/
def sendMessage (ws : Option WebSocketRef) (st : ClientState) (content : String)
    (now : Nat) : ClientState × List ClientEnvelope :=
  match ws with
  | some w =>
      if w.readyState = .OPEN then
        ({ st with messages := st.messages ++ [⟨.user, content, now⟩] },
         [.message content])
      else (st, [])
  | none => (st, [])

/-- The `clearHistory` callback of `useWebSocket.js`: when the socket is
open, send a `clear_history` envelope; otherwise do nothing. It never
touches the `messages` state. Returns the frames sent. -/
def clearHistory (ws : Option WebSocketRef) : List ClientEnvelope :=
  match ws with
  | some w =>
      if w.readyState = .OPEN then [.clear_history] else []
  | none => []

/-- The auto-speak effect of `App.jsx`: when `autoSpeak` is on and the
message list is non-empty, look at the last message; if it is an assistant
message whose content differs (strict inequality, initial ref value
`null`) from `lastSpokenRef.current`, record it as spoken and call
`speak`. Returns the new `lastSpokenRef.current` and the list of `speak`
calls made by this run of the effect. -/
def autoSpeakEffect (autoSpeak : Bool) (messages : List ChatMessage)
    (lastSpoken : Option String) : Option String × List String :=
  if autoSpeak ∧ 0 < messages.length then
    match messages.getLast? with
    | some lastMessage =>
        if lastMessage.role = Role.assistant ∧ some lastMessage.content ≠ lastSpoken then
          (some lastMessage.content, [lastMessage.content])
        else (lastSpoken, [])
    | none => (lastSpoken, [])
  else (lastSpoken, [])

/-- Modelled from the spec: a Turn of a Session's ordered history (§3),
`role: user|assistant` with its content (the backend implementation is not
in the inspected sources). -/
structure Turn where
  role : Role
  content : String
deriving DecidableEq

/-- Modelled from the spec: one element of the Retriever's result (§4.2),
a chunk text with its source attribution and similarity score. Scores are
modelled as rationals. -/
structure ScoredChunk where
  text : String
  source : String
  score : ℚ
deriving DecidableEq

/-- Modelled from the spec: the error taxonomy entry relevant to the
orchestrator, `GenerationError` (§7: language-model call failed or
returned empty). -/
inductive AgentError
  | generationError
deriving DecidableEq

/-- Modelled from the spec: the fixed refusal template of §4.4 step 2. -/
def refusalText : String :=
  "I can only answer questions about NovaTech Solutions…"

/-- Modelled from the spec: the fixed system instruction restricting the
assistant to the supplied context and the company domain (§4.4 step 3). -/
def systemInstruction : String :=
  "Answer only from the provided NovaTech Solutions context."

/-- Modelled from the spec: the generic, non-leaking error description the
Session Manager sends on a failed generation (§4.5). -/
def errorText : String :=
  "Sorry, something went wrong. Please try again."

/-- Modelled from the spec: prompt assembly (§4.4 step 3) — the system
instruction, the retrieved chunk texts concatenated with source
attribution, the recent Turns, and the new user text. -/
def assemblePrompt (chunks : List ScoredChunk) (recent : List Turn)
    (userText : String) : String :=
  let context := String.intercalate "\n"
    (chunks.map (fun c => "[" ++ c.source ++ "] " ++ c.text))
  let historyText := String.intercalate "\n"
    (recent.map (fun t =>
      (match t.role with
       | .user => "User: "
       | .assistant => "Assistant: ") ++ t.content))
  systemInstruction ++ "\n" ++ context ++ "\n" ++ historyText
    ++ "\nUser: " ++ userText

/-- Modelled from the spec: the Agent Orchestrator `answer()` (§4.4).
`retrieve` and `generate` are the capability interfaces (§9); `generate`
returns `none` when the language-model call fails. Steps: retrieve;
short-circuit to the fixed refusal without calling the model when the
retrieved set is empty or all scores fall below the threshold; otherwise
assemble the prompt from the instruction, chunks, the recent `window`
Turns and the user text, invoke the model, treat a failed or empty result
as `GenerationError` (history unchanged), and on success append the user
and assistant Turns. The second component counts `generate` calls. -/
def answer (retrieve : String → List ScoredChunk)
    (generate : String → Option String) (threshold : ℚ) (window : Nat)
    (history : List Turn) (userText : String) :
    Except AgentError (String × List Turn) × Nat :=
  let retrieved := retrieve userText
  if retrieved.isEmpty ∨ retrieved.all (fun c => c.score < threshold) then
    (.ok (refusalText,
          history ++ [⟨.user, userText⟩, ⟨.assistant, refusalText⟩]), 0)
  else
    let recent := (history.reverse.take window).reverse
    let prompt := assemblePrompt retrieved recent userText
    match generate prompt with
    | none => (.error .generationError, 1)
    | some t =>
        if t = "" then (.error .generationError, 1)
        else (.ok (t, history ++ [⟨.user, userText⟩, ⟨.assistant, t⟩]), 1)

/-- Modelled from the spec: the Session Manager's handling of a client
`message` (§4.5) — send a `typing` indicator immediately, invoke the
orchestrator, then send a `response` on success or a generic `error` on
failure (the session history is then left as it was). Returns the
envelopes sent, in order, and the resulting session history. -/
def handleClientMessage (retrieve : String → List ScoredChunk)
    (generate : String → Option String) (threshold : ℚ) (window : Nat)
    (session : List Turn) (userText : String) :
    List ServerMsg × List Turn :=
  match answer retrieve generate threshold window session userText with
  | (.ok (reply, updated), _) =>
      ([.typing true, .response reply], updated)
  | (.error _, _) =>
      ([.typing true, .error errorText], session)

/-! Theorems for the claims. -/

/-- C2: for every prior message list and every received `cleared`
envelope, after processing the envelope the message list contains exactly
one entry, an assistant-role message whose content is the envelope's
greeting content, regardless of what was present before. -/
theorem C2_cleared_resets_to_single_greeting (st : ClientState)
    (greeting : String) (now : Nat) :
    (handleEnvelope st (.cleared greeting) now).messages
      = [⟨Role.assistant, greeting, now⟩] := rfl

/-- C3: processing a `typing` envelope sets `isTyping` to the envelope's
boolean content, and processing a terminal envelope (`response` or
`error`) always leaves `isTyping` false, in every client state. -/
theorem C3_typing_flag_discipline (st : ClientState) (b : Bool)
    (c d : String) (now : Nat) :
    (handleEnvelope st (.typing b) now).isTyping = b
    ∧ (handleEnvelope st (.response c) now).isTyping = false
    ∧ (handleEnvelope st (.error d) now).isTyping = false :=
  ⟨rfl, rfl, rfl⟩

/-- C4 (counterexample): the claim says a malformed (non-JSON) frame is
ignored, leaving the handler's state as it was; in the code
`JSON.parse(event.data)` runs without a try/catch, so on a non-JSON frame
the handler throws instead of returning the unchanged state. -/
theorem C4_counterexample_malformed_throws :
    onmessage initialState .malformed 0 ≠ .ok initialState := by
  simp [onmessage]

/-- C4 (amended): an envelope whose type matches none of the five cases is
ignored, leaving the message list and `isTyping` unchanged; but the
handler is not total: a non-JSON frame makes `JSON.parse` throw a
SyntaxError, and a JSON `null` frame makes the `data.type` access throw a
TypeError. In both throwing cases no state setter has run, so the message
list and `isTyping` are unchanged, and the handler itself never closes the
connection. -/
theorem C4_unknown_ignored_but_parse_throws (st : ClientState) (now : Nat) :
    onmessage st (.frame .other) now = .ok st
    ∧ onmessage st .malformed now = .error ()
    ∧ onmessage st .nullFrame now = .error () :=
  ⟨rfl, rfl, rfl⟩

/-- C5: every frame the hook sends is one of exactly two envelope kinds:
`sendMessage content` sends either nothing or the single envelope
`{type: message, content}` with the content equal to its argument (and
exactly that envelope when the socket is open), and `clearHistory` sends
either nothing or the single payload-free `{type: clear_history}`
envelope (and exactly it when the socket is open); no other envelope kind
is ever sent. -/
theorem C5_only_two_client_envelope_kinds (ws : Option WebSocketRef)
    (st : ClientState) (content : String) (now : Nat) :
    ((sendMessage ws st content now).2 = []
      ∨ (sendMessage ws st content now).2 = [.message content])
    ∧ (clearHistory ws = [] ∨ clearHistory ws = [.clear_history])
    ∧ (sendMessage (some ⟨.OPEN⟩) st content now).2 = [.message content]
    ∧ clearHistory (some ⟨.OPEN⟩) = [.clear_history] := by
  refine ⟨?_, ?_, rfl, rfl⟩ <;>
    rcases ws with _ | w <;>
      simp [sendMessage, clearHistory] <;>
        rcases w with ⟨_ | _ | _ | _⟩ <;> simp

/-- C7: the message list is append-only and most-recent-last across every
handler other than `cleared`: `connected` and `response` append exactly
one entry at the end, `typing`, `error` and unknown envelopes leave the
list unchanged, and `sendMessage` on an open socket appends exactly one
user entry at the end; previously recorded entries are never removed,
mutated or reordered. -/
theorem C7_message_list_append_only (st : ClientState) (b : Bool)
    (c₁ c₂ c₃ c₄ : String) (now : Nat) :
    (handleEnvelope st (.connected c₁) now).messages
        = st.messages ++ [⟨Role.assistant, c₁, now⟩]
    ∧ (handleEnvelope st (.response c₂) now).messages
        = st.messages ++ [⟨Role.assistant, c₂, now⟩]
    ∧ (handleEnvelope st (.typing b) now).messages = st.messages
    ∧ (handleEnvelope st (.error c₃) now).messages = st.messages
    ∧ (handleEnvelope st .other now).messages = st.messages
    ∧ (sendMessage (some ⟨.OPEN⟩) st c₄ now).1.messages
        = st.messages ++ [⟨Role.user, c₄, now⟩] :=
  ⟨rfl, rfl, rfl, rfl, rfl, rfl⟩

/-- C8: processing a `connected` envelope appends one assistant-role
message carrying the greeting to the existing list, leaving every
previously present message (and the rest of the state) unchanged — it
does not reset the list the way `cleared` does. -/
theorem C8_connected_appends_greeting (st : ClientState)
    (greeting : String) (now : Nat) :
    handleEnvelope st (.connected greeting) now
      = { st with messages := st.messages ++ [⟨Role.assistant, greeting, now⟩] } :=
  rfl

/-- C9: when the socket reference is absent or its readyState is not OPEN,
`sendMessage` and `clearHistory` are complete no-ops: nothing is sent on
the wire and the client state is unchanged. -/
theorem C9_not_open_send_noop (st : ClientState) (content : String)
    (now : Nat) :
    sendMessage none st content now = (st, [])
    ∧ sendMessage (some ⟨.CONNECTING⟩) st content now = (st, [])
    ∧ sendMessage (some ⟨.CLOSING⟩) st content now = (st, [])
    ∧ sendMessage (some ⟨.CLOSED⟩) st content now = (st, [])
    ∧ clearHistory none = []
    ∧ clearHistory (some ⟨.CONNECTING⟩) = []
    ∧ clearHistory (some ⟨.CLOSING⟩) = []
    ∧ clearHistory (some ⟨.CLOSED⟩) = [] :=
  ⟨rfl, rfl, rfl, rfl, rfl, rfl, rfl, rfl⟩

/-- C10: with auto-speak enabled, a newly arriving assistant message is
spoken at most once: the effect that just spoke a message emits no further
`speak` call when an identical assistant message arrives next (exactly one
call across the two runs), and a `speak` call only ever happens when the
last message has role assistant and its content differs from the most
recently spoken content. -/
theorem C10_auto_speak_at_most_once (ms : List ChatMessage) (m : ChatMessage)
    (now : Nat) (ls₀ : Option String)
    (hrole : m.role = Role.assistant) (hnew : some m.content ≠ ls₀) :
    (autoSpeakEffect true (ms ++ [m]) ls₀).2 = [m.content]
    ∧ (autoSpeakEffect true (ms ++ [m, ⟨Role.assistant, m.content, now⟩])
         (autoSpeakEffect true (ms ++ [m]) ls₀).1).2 = []
    ∧ ∀ msgs ls, (autoSpeakEffect true msgs ls).2 ≠ [] →
        ∃ last, msgs.getLast? = some last ∧ last.role = Role.assistant
          ∧ some last.content ≠ ls := by
  have hall : autoSpeakEffect true (ms ++ [m]) ls₀ = (some m.content, [m.content]) := by
    simp [autoSpeakEffect, List.getLast?_concat, hrole, hnew]
  refine ⟨by rw [hall], ?_, ?_⟩
  · rw [hall]
    have hsplit : ms ++ [m, (⟨Role.assistant, m.content, now⟩ : ChatMessage)]
        = (ms ++ [m]) ++ [⟨Role.assistant, m.content, now⟩] := by simp
    rw [hsplit]
    simp [autoSpeakEffect, List.getLast?_concat]
  · intro msgs ls h
    rcases hl : msgs.getLast? with _ | last
    · simp [autoSpeakEffect, hl] at h
    · by_cases hc : last.role = Role.assistant ∧ some last.content ≠ ls
      · exact ⟨last, rfl, hc.1, hc.2⟩
      · simp [autoSpeakEffect, hl, hc] at h

/-- C10 witness: a first assistant message "Hello" is spoken, and an
identical assistant message arriving right after is not spoken again. -/
theorem C10_auto_speak_witness :
    (⟨Role.assistant, "Hello", 0⟩ : ChatMessage).role = Role.assistant
    ∧ (some "Hello" ≠ (none : Option String))
    ∧ (autoSpeakEffect true [⟨Role.assistant, "Hello", 0⟩] none).2 = ["Hello"]
    ∧ (autoSpeakEffect true
        [⟨Role.assistant, "Hello", 0⟩, ⟨Role.assistant, "Hello", 1⟩]
        (autoSpeakEffect true [⟨Role.assistant, "Hello", 0⟩] none).1).2 = [] :=
  ⟨rfl, by decide,
   (C10_auto_speak_at_most_once [] ⟨Role.assistant, "Hello", 0⟩ 1 none rfl
     (by decide)).1,
   (C10_auto_speak_at_most_once [] ⟨Role.assistant, "Hello", 0⟩ 1 none rfl
     (by decide)).2.1⟩

/-- C1: whenever retrieval returns the empty set, `answer()` returns
exactly the fixed refusal text and performs zero `generate` calls — the
refusal short-circuit never invokes the language model. -/
theorem C1_empty_retrieval_short_circuit (retrieve : String → List ScoredChunk)
    (generate : String → Option String) (threshold : ℚ) (window : Nat)
    (history : List Turn) (userText : String)
    (h : retrieve userText = []) :
    answer retrieve generate threshold window history userText
      = (.ok (refusalText,
          history ++ [⟨Role.user, userText⟩, ⟨Role.assistant, refusalText⟩]), 0) := by
  simp [answer, h]

/-- C1 witness: an out-of-scope query with empty retrieval yields the
refusal reply and a `generate` call count of zero. -/
theorem C1_empty_retrieval_witness :
    ((fun _ : String => ([] : List ScoredChunk)) "What is the capital of France?" = [])
    ∧ answer (fun _ => []) (fun _ => some "ok") 1 6 []
        "What is the capital of France?"
      = (.ok (refusalText,
          [⟨Role.user, "What is the capital of France?"⟩,
           ⟨Role.assistant, refusalText⟩]), 0) :=
  ⟨rfl, C1_empty_retrieval_short_circuit _ _ _ _ _ _ rfl⟩

/-- C6: if the language-model call fails or returns an empty result on the
grounded path of `answer()`, the Session Manager sends a protocol `error`
envelope and the session history is exactly what it was before the call —
the user Turn of the failed attempt is not recorded. -/
theorem C6_generation_failure_atomicity (retrieve : String → List ScoredChunk)
    (generate : String → Option String) (threshold : ℚ) (window : Nat)
    (session : List Turn) (userText : String)
    (hne : (retrieve userText).isEmpty = false)
    (hscore : (retrieve userText).all (fun c => decide (c.score < threshold)) = false)
    (hfail : generate (assemblePrompt (retrieve userText)
          ((session.reverse.take window).reverse) userText) = none
      ∨ generate (assemblePrompt (retrieve userText)
          ((session.reverse.take window).reverse) userText) = some "") :
    handleClientMessage retrieve generate threshold window session userText
      = ([.typing true, .error errorText], session) := by
  rcases hfail with hf | hf <;>
    simp [handleClientMessage, answer, hne, hscore, hf]

/-- C6 witness: with one retrieved chunk above threshold and a failing
language model, the envelopes sent are `typing` then `error`, and the
session history is unchanged. -/
theorem C6_generation_failure_witness :
    (((fun _ : String =>
        [(⟨"NovaTech was founded in 2010.", "docs", 2⟩ : ScoredChunk)])
        "When was NovaTech founded?").isEmpty = false)
    ∧ handleClientMessage
        (fun _ => [⟨"NovaTech was founded in 2010.", "docs", 2⟩])
        (fun _ => none) 1 6 [⟨Role.user, "Hello"⟩] "When was NovaTech founded?"
      = ([.typing true, .error errorText], [⟨Role.user, "Hello"⟩]) :=
  ⟨rfl, C6_generation_failure_atomicity _ _ _ _ _ _ rfl (by decide) (Or.inl rfl)⟩

end NovaTech
